import Mathlib

/-!
Shallow embedding of the browser runtime acquisition subsystem of
src/browser_agent/browser_factory.py: endpoint liveness probing
(_cdp_alive), port scanning (_find_free_port), the fresh-Chrome launcher
(_launch_with_profile_dir and _launch_fresh_chrome_for_cdp), the cleanup
contract (BrowserRuntime.cleanup) and the mode negotiation in
build_browser.  External effects (HTTP fetches, TCP connect probes,
process spawn/poll/terminate, wall-clock time) are passed in as oracles,
and the observable actions each function performs are collected in an
event trace so that ordering and absence of actions can be stated.
-/

namespace BrowserAgent

/-! ### JSON values and Python truthiness, for `_cdp_alive` -/

/-- A JSON value as produced by `json.loads`.  Numbers are modelled by
integers; none of the probed properties depend on fractional values. -/
inductive Json where
  | null
  | bool (b : Bool)
  | num (n : Int)
  | str (s : String)
  | arr (elems : List Json)
  | obj (fields : List (String × Json))

/-- Python truthiness (`bool(v)`) of a JSON value: `None`, `False`, `0`,
`""`, `[]` and `\x7b\x7d` are falsy, everything else is truthy. -/
def truthy : Json → Bool
  | Json.null => false
  | Json.bool b => b
  | Json.num n => n != 0
  | Json.str s => s != ""
  | Json.arr elems => !elems.isEmpty
  | Json.obj fields => !fields.isEmpty

/-- Python `payload.get(key)` on a dict: the value, when the key is
present (first binding wins in the model; `json.loads` never yields
duplicate keys). -/
def jsonGet (fields : List (String × Json)) (key : String) : Option Json :=
  (fields.find? (fun kv => kv.1 == key)).map (fun kv => kv.2)

/-- An exception inside `_cdp_alive`'s try block. -/
inductive ProbeError where
  /-- `urlopen` failed, timed out, or the body failed to decode or to
  parse as JSON. -/
  | transport
  /-- the parsed payload is not a dict, so `payload.get` raises
  `AttributeError`. -/
  | attributeError
deriving DecidableEq, Repr

/-- Body of `_cdp_alive`'s try block.  The HTTP fetch plus `json.loads`
is abstracted by `response`: `none` when the transport or the parse
fails, `some payload` otherwise.  `bool(payload.get("Browser"))` is
Python truthiness of the looked-up field (missing key gives `None`,
which is falsy). -/
def cdpAliveAttempt (response : Option Json) : Except ProbeError Bool :=
  match response with
  | none => Except.error ProbeError.transport
  | some payload =>
    match payload with
    | Json.obj fields => Except.ok (truthy ((jsonGet fields "Browser").getD Json.null))
    | _ => Except.error ProbeError.attributeError

/-- `_cdp_alive`: the catch-all `except Exception: return False` around
the attempt.  Two-valued; no exception escapes. -/
def cdp_alive (response : Option Json) : Bool :=
  match cdpAliveAttempt response with
  | Except.ok b => b
  | Except.error _ => false

/-- Modelled from the spec's words (the claim's reading of the probe):
Alive only when the response parses as a JSON object whose "Browser"
field is a non-empty string.  Kept for comparison with `cdp_alive`,
which is translated from the source. -/
def specBrowserFieldNonemptyString (response : Option Json) : Bool :=
  match response with
  | some (Json.obj fields) =>
    match jsonGet fields "Browser" with
    | some (Json.str s) => s != ""
    | _ => false
  | _ => false

/-- A concrete probed response whose "Browser" field is truthy but not a
string: the boolean `true`. -/
def boolBrowserResponse : Option Json := some (Json.obj [("Browser", Json.bool true)])

/-! ### Port scanning: `_port_open` / `_find_free_port` -/

/-- Scan `n` consecutive ports starting at `start`, mirroring
`for port in range(start, stop + 1)` with `n = stop + 1 - start`.
Returns the ports probed by `_port_open`, in order, and the first port
for which the bounded TCP connect attempt fails (`busy port = false`),
if any. -/
def scanPorts (busy : Nat → Bool) : Nat → Nat → List Nat × Option Nat
  | _, 0 => ([], none)
  | start, n + 1 =>
    if busy start then
      let rest := scanPorts busy (start + 1) n
      (start :: rest.1, rest.2)
    else ([start], some start)

/-- The probing loop of `_find_free_port start stop`: the ports probed
and its result. -/
def findFreePortScan (busy : Nat → Bool) (start stop : Nat) : List Nat × Option Nat :=
  scanPorts busy start (stop + 1 - start)

/-- Default upper bound of `_find_free_port`'s scan (`stop: int = 9400`). -/
def portScanStop : Nat := 9400

/-- `_find_free_port(start)` with the default stop: the first free port
in `[start, 9400]`, or the `RuntimeError` message when the range is
exhausted (or empty). -/
def find_free_port (busy : Nat → Bool) (start : Nat) : Except String Nat :=
  match (findFreePortScan busy start portScanStop).2 with
  | some port => Except.ok port
  | none =>
    Except.error
      ("No free local port found in range " ++ toString start ++ "-"
        ++ toString portScanStop ++ ".")

/-! ### Configuration, worlds and event traces -/

/-- The fields of `AppConfig` that the browser factory reads.
`fresh_chrome_start_timeout` is expressed in poll iterations of the
readiness loop (the source divides a wall-clock timeout into 0.25 s
sleeps); `config.validate` guarantees it is positive and `cdp_port`
positive, but no theorem below relies on validation unless stated. -/
structure AppConfig where
  browser_mode : String
  connect_existing_cdp : Bool
  cdp_url : Option String
  cdp_port : Nat
  fresh_chrome_user_data_dir : String
  fresh_chrome_start_timeout : Nat
  profile_directory : String
  headless : Bool
  keep_alive : Bool

/-- Python `s.lower()` character by character (the configured mode
strings are ASCII, where this agrees with `str.lower`). -/
def pyLower (s : String) : String := String.mk (s.data.map Char.toLower)

/-- Strip trailing slashes, mirroring `base.rstrip('/')`. -/
def rstripSlashes (s : String) : String :=
  String.mk ((s.data.reverse.dropWhile (fun c => c == '/')).reverse)

/-- The candidate endpoint list built by `_resolve_existing_cdp_url`:
the configured URL (when truthy) with trailing slashes stripped,
followed by the `127.0.0.1` and `localhost` variants of the configured
port (when the port is truthy, i.e. nonzero). -/
def cdpCandidates (config : AppConfig) : List String :=
  (match config.cdp_url with
   | some u => if u == "" then [] else [rstripSlashes u]
   | none => []) ++
  (if config.cdp_port != 0 then
    ["http://127.0.0.1:" ++ toString config.cdp_port,
     "http://localhost:" ++ toString config.cdp_port]
   else [])

/-- The candidate loop of `_resolve_existing_cdp_url`: walk the list,
skip candidates already in `seen`, probe the rest in order and stop at
the first Alive one.  Returns the candidates probed (in probe order) and
the first live candidate, if any.  `alive` abstracts `_cdp_alive` at the
time of the probe. -/
def probeCandidates (alive : String → Bool) : List String → List String → List String × Option String
  | _, [] => ([], none)
  | seen, c :: rest =>
    if seen.contains c then probeCandidates alive seen rest
    else if alive c then ([c], some c)
    else
      let out := probeCandidates alive (c :: seen) rest
      (c :: out.1, out.2)

/-- `_resolve_existing_cdp_url`: probed candidates and result. -/
def resolveExistingCdpUrl (alive : String → Bool) (config : AppConfig) :
    List String × Option String :=
  probeCandidates alive [] (cdpCandidates config)

/-- Observable actions of the factory, in program order. -/
inductive Event where
  /-- an `_cdp_alive` probe of `url` (candidate probing or readiness
  polling). -/
  | probe (url : String)
  /-- a `_port_open` TCP connect attempt against `port`. -/
  | portCheck (port : Nat)
  /-- `user_data_dir.mkdir(parents=True, exist_ok=True)`: the start of a
  launch attempt using `dir`. -/
  | mkdir (dir : String)
  /-- `subprocess.Popen` of the browser on `port` with profile `dir`. -/
  | spawn (port : Nat) (dir : String)
  /-- a `process.terminate()` attempt. -/
  | terminate
  /-- construction of the `BrowserRuntime` handle returned to the
  caller. -/
  | mkHandle
deriving DecidableEq, Repr

/-- A failure raised inside the fresh-launch path. -/
inductive LaunchFailure where
  /-- Chrome exited with `exitCode` before CDP became available. -/
  | processExitedEarly (exitCode : Int)
  /-- fresh Chrome did not expose CDP within the startup timeout. -/
  | startupTimeout
  /-- `_find_free_port` exhausted `[start, stop]`. -/
  | noFreePort (start stop : Nat)
  /-- `_find_chrome_executable` found no browser binary. -/
  | exeNotFound
deriving DecidableEq, Repr

/-- The environment one launch attempt runs against: port occupancy at
reallocation time, endpoint liveness at each poll tick of the readiness
loop, and the `process.poll()` observation at each tick (`some code`
once the spawned process has exited). -/
structure AttemptWorld where
  busy : Nat → Bool
  cdpReady : Nat → Bool
  exitedWith : Nat → Option Int

/-- The spawned process as recorded by the factory: the port it was
told to bind and the user-data directory it was given. -/
structure LaunchedProc where
  port : Nat
  userDataDir : String
deriving DecidableEq, Repr

/-- The endpoint URL advertised for a freshly launched Chrome. -/
def cdpUrlFor (port : Nat) : String := "http://127.0.0.1:" ++ toString port

/-- The readiness loop of `_launch_with_profile_dir`: at each tick probe
the endpoint, return on Alive, fail with the exit code when the process
has exited, sleep otherwise; when the budget is exhausted attempt to
terminate the process and fail with the startup timeout.  `fuel` is the
number of loop iterations remaining and `t` the current tick. -/
def pollForCdp (w : AttemptWorld) (url : String) : Nat → Nat → List Event × Except LaunchFailure Unit
  | 0, _ => ([Event.terminate], Except.error LaunchFailure.startupTimeout)
  | fuel + 1, t =>
    if w.cdpReady t then ([Event.probe url], Except.ok ())
    else
      match w.exitedWith t with
      | some code => ([Event.probe url], Except.error (LaunchFailure.processExitedEarly code))
      | none =>
        let rest := pollForCdp w url fuel (t + 1)
        (Event.probe url :: rest.1, rest.2)

/-- One launch attempt, `_launch_with_profile_dir(user_data_dir)`:
create the profile directory, keep the desired port or silently
reallocate the first free port from `desired + 1` when the desired one
is occupied, spawn Chrome on the chosen port and poll for readiness. -/
def launchWithProfileDir (w : AttemptWorld) (config : AppConfig) (dir : String) :
    List Event × Except LaunchFailure (LaunchedProc × String) :=
  let desired := config.cdp_port
  if w.busy desired then
    let scan := findFreePortScan w.busy (desired + 1) portScanStop
    let preEvents := Event.mkdir dir :: Event.portCheck desired :: scan.1.map Event.portCheck
    match scan.2 with
    | none => (preEvents, Except.error (LaunchFailure.noFreePort (desired + 1) portScanStop))
    | some port =>
      let url := cdpUrlFor port
      let poll := pollForCdp w url config.fresh_chrome_start_timeout 0
      (preEvents ++ Event.spawn port dir :: poll.1,
       poll.2.map (fun _ => (⟨port, dir⟩, url)))
  else
    let url := cdpUrlFor desired
    let poll := pollForCdp w url config.fresh_chrome_start_timeout 0
    (Event.mkdir dir :: Event.portCheck desired :: Event.spawn desired dir :: poll.1,
     poll.2.map (fun _ => (⟨desired, dir⟩, url)))

/-- A fatal error surfaced by `_launch_fresh_chrome_for_cdp`.  `context`
models Python's implicit exception chaining: an exception raised while
an `except Exception as first_error` handler is active carries
`first_error` as its `__context__`, so a retry failure references the
first attempt's failure as well. -/
structure FatalLaunchError where
  failure : LaunchFailure
  context : Option LaunchFailure
deriving DecidableEq, Repr

/-- The retry profile directory,
`base.parent / (base.name ++ "-run-" ++ int(time.time()))`. -/
def retryDirFor (baseDir : String) (timestamp : Nat) : String :=
  baseDir ++ "-run-" ++ toString timestamp

/-- The environment of a whole fresh launch: the outcome of
`_find_chrome_executable` and one `AttemptWorld` per attempt (port and
process state can differ between the two attempts). -/
structure FreshWorld where
  findExecutable : Except Unit String
  first : AttemptWorld
  second : AttemptWorld

/-- `_launch_fresh_chrome_for_cdp`: resolve the executable, attempt the
primary user-data directory, and on any failure retry exactly once with
the timestamp-suffixed directory; a retry failure is surfaced chained to
the first failure. -/
def launchFreshChromeForCdp (w : FreshWorld) (config : AppConfig) (timestamp : Nat) :
    List Event × Except FatalLaunchError (LaunchedProc × String) :=
  match w.findExecutable with
  | Except.error _ => ([], Except.error ⟨LaunchFailure.exeNotFound, none⟩)
  | Except.ok _ =>
    let baseDir := config.fresh_chrome_user_data_dir
    let attempt1 := launchWithProfileDir w.first config baseDir
    match attempt1.2 with
    | Except.ok res => (attempt1.1, Except.ok res)
    | Except.error e1 =>
      let attempt2 := launchWithProfileDir w.second config (retryDirFor baseDir timestamp)
      match attempt2.2 with
      | Except.ok res => (attempt1.1 ++ attempt2.1, Except.ok res)
      | Except.error e2 => (attempt1.1 ++ attempt2.1, Except.error ⟨e2, some e1⟩)

/-- The user-data directories the launcher started attempts with, read
off the trace (one `mkdir` opens each attempt). -/
def attemptDirs (events : List Event) : List String :=
  events.filterMap (fun e =>
    match e with
    | Event.mkdir d => some d
    | _ => none)

/-! ### Manual-start hint and the negotiated runtime -/

/-- The host operating system, as reported by `platform.system()`. -/
inductive OS where
  | windows
  | darwin
  | linux
deriving DecidableEq, Repr

/-- `_manual_cdp_start_hint`: the OS-appropriate shell command for
starting Chrome with remote debugging on `port`. -/
def manualCdpStartHint (system : OS) (port : Nat) : String :=
  match system with
  | OS.windows =>
    "chrome --remote-debugging-port=" ++ toString port
      ++ " --user-data-dir=\"%LOCALAPPDATA%\\ChromeCDP\""
  | OS.darwin =>
    "open -a \"Google Chrome\" --args --remote-debugging-port=" ++ toString port
      ++ " --user-data-dir=\"$HOME/.chrome-cdp\""
  | OS.linux =>
    "google-chrome --remote-debugging-port=" ++ toString port
      ++ " --user-data-dir=\"$HOME/.chrome-cdp\""

/-- The `RuntimeError` message raised by `build_browser` in own mode
when no live endpoint was found. -/
def ownModeErrorMessage (system : OS) (port : Nat) : String :=
  "BROWSER_MODE=own requires a live Chrome CDP session.\nStart Chrome with:\n  "
    ++ manualCdpStartHint system port
    ++ "\nOr switch to BROWSER_MODE=fresh."

/-- The `BrowserRuntime` handle.  The `browser`/`BrowserProfile` objects
built from the resolved endpoint belong to the external automation
library and carry no further factory state, so they are not modelled. -/
structure BrowserRuntime where
  mode : String
  cdp_url : Option String
  launched_process : Option LaunchedProc
deriving DecidableEq, Repr

/-- An error surfaced by `build_browser`. -/
inductive BuildError where
  /-- own mode with no live candidate endpoint. -/
  | noLiveEndpoint (message : String)
  /-- a fatal fresh-launch failure. -/
  | launch (e : FatalLaunchError)
deriving DecidableEq, Repr

/-- The environment `build_browser` runs against: candidate liveness at
probing time, the fresh-launch environment and the host OS. -/
structure World where
  alive : String → Bool
  fresh : FreshWorld
  system : OS

/-- `build_browser`: lower-case the configured mode, probe the existing
candidates when the mode is auto or own or `connect_existing_cdp` is
set, rewrite auto into own or fresh according to the probe result, fail
in own mode when nothing is live, launch fresh Chrome when the (active)
mode is fresh, blank the endpoint in managed mode, and wrap the outcome
in a `BrowserRuntime`. -/
def build_browser (w : World) (config : AppConfig) (timestamp : Nat) :
    List Event × Except BuildError BrowserRuntime :=
  let mode := pyLower config.browser_mode
  let shouldProbeExisting := mode == "auto" || mode == "own" || config.connect_existing_cdp
  let probeOut :=
    if shouldProbeExisting then resolveExistingCdpUrl w.alive config else ([], none)
  let probeEvents := probeOut.1.map Event.probe
  let existingCdp := probeOut.2
  let activeMode :=
    if mode == "auto" then (if existingCdp.isSome then "own" else "fresh") else mode
  let cdpAfterAuto : Option String := if mode == "auto" then existingCdp else none
  if mode == "own" && existingCdp.isNone then
    (probeEvents,
     Except.error (BuildError.noLiveEndpoint (ownModeErrorMessage w.system config.cdp_port)))
  else
    let cdpAfterOwn := if mode == "own" then existingCdp else cdpAfterAuto
    if mode == "fresh" || activeMode == "fresh" then
      let launch := launchFreshChromeForCdp w.fresh config timestamp
      match launch.2 with
      | Except.error e => (probeEvents ++ launch.1, Except.error (BuildError.launch e))
      | Except.ok (proc, url) =>
        let managedMode := mode == "managed" || activeMode == "managed"
        let finalCdp : Option String := if managedMode then none else some url
        (probeEvents ++ launch.1 ++ [Event.mkHandle],
         Except.ok
           { mode := if mode == "auto" then activeMode else mode
             cdp_url := finalCdp
             launched_process := some proc })
    else
      let managedMode := mode == "managed" || activeMode == "managed"
      let finalCdp : Option String := if managedMode then none else cdpAfterOwn
      (probeEvents ++ [Event.mkHandle],
       Except.ok
         { mode := if mode == "auto" then activeMode else mode
           cdp_url := finalCdp
           launched_process := none })

/-! ### Cleanup: `BrowserRuntime.cleanup` -/

/-- Behaviour of `process.terminate(); process.wait(timeout=5)` on the
owned process. -/
inductive TerminateOutcome where
  /-- terminate and the bounded wait both return: the process exited
  within the 5 s grace period. -/
  | exitsWithinGrace
  /-- `wait(timeout=5)` raised `TimeoutExpired`: the process is still
  alive after the grace period. -/
  | stillAliveAfterGrace
  /-- `terminate()` itself raised. -/
  | raisesOnSignal
deriving DecidableEq, Repr

/-- Behaviour of `process.kill()` on the owned process. -/
inductive KillOutcome where
  | succeeds
  | raisesOnSignal
deriving DecidableEq, Repr

/-- The owned process as `cleanup` observes it. -/
structure ProcState where
  /-- `process.poll()`: `some code` when the process already exited. -/
  pollResult : Option Int
  terminateOutcome : TerminateOutcome
  killOutcome : KillOutcome

/-- Signals and waits `cleanup` performs, in order. -/
inductive CleanupAction where
  | terminate
  | waitGrace (seconds : Nat)
  | kill
deriving DecidableEq, Repr

/-- The `try: terminate(); wait(timeout=5)` block of `cleanup`: its
actions and whether it raised. -/
def tryTerminateAndWait (p : ProcState) : List CleanupAction × Except Unit Unit :=
  match p.terminateOutcome with
  | TerminateOutcome.exitsWithinGrace =>
    ([CleanupAction.terminate, CleanupAction.waitGrace 5], Except.ok ())
  | TerminateOutcome.stillAliveAfterGrace =>
    ([CleanupAction.terminate, CleanupAction.waitGrace 5], Except.error ())
  | TerminateOutcome.raisesOnSignal =>
    ([CleanupAction.terminate], Except.error ())

/-- The `try: kill()` block of the first handler: its actions and
whether it raised. -/
def tryKill (p : ProcState) : List CleanupAction × Except Unit Unit :=
  match p.killOutcome with
  | KillOutcome.succeeds => ([CleanupAction.kill], Except.ok ())
  | KillOutcome.raisesOnSignal => ([CleanupAction.kill], Except.error ())

/-- `BrowserRuntime.cleanup(logger, keep_alive)`: a no-op when
`keep_alive` is set, no process is owned, or the owned process already
exited; otherwise graceful termination with a 5 s grace period,
escalating to a kill, whose own failure is only logged.  The second
component records whether an exception reaches the caller. -/
def cleanup (launched : Option ProcState) (keepAlive : Bool) :
    List CleanupAction × Except Unit Unit :=
  if keepAlive || launched.isNone then ([], Except.ok ())
  else
    match launched with
    | none => ([], Except.ok ())
    | some p =>
      if p.pollResult.isSome then ([], Except.ok ())
      else
        let graceful := tryTerminateAndWait p
        match graceful.2 with
        | Except.ok _ => (graceful.1, Except.ok ())
        | Except.error _ =>
          let forced := tryKill p
          (graceful.1 ++ forced.1, Except.ok ())

/-! ### Concrete environments and configurations used for witnesses -/

/-- No local port has a listener. -/
def freePorts : Nat → Bool := fun _ => false

/-- The polled endpoint never becomes Alive. -/
def neverReady : Nat → Bool := fun _ => false

/-- The spawned process never exits on its own. -/
def neverExits : Nat → Option Int := fun _ => none

/-- An attempt in which the spawned process hangs: free ports, endpoint
never Alive, process never exits. -/
def quietAttempt : AttemptWorld :=
  { busy := freePorts, cdpReady := neverReady, exitedWith := neverExits }

/-- An attempt in which the spawned process dies at once with `code`,
before the endpoint ever probes Alive. -/
def exitEarlyAttempt (code : Int) : AttemptWorld :=
  { busy := freePorts, cdpReady := neverReady, exitedWith := fun _ => some code }

/-- A fresh-launch environment in which both attempts hang until the
startup timeout. -/
def quietFresh : FreshWorld :=
  { findExecutable := Except.ok "google-chrome", first := quietAttempt, second := quietAttempt }

/-- A fresh-launch environment in which the first attempt's process
exits with code 9 and the retry's process exits with code 7. -/
def failTwiceFresh : FreshWorld :=
  { findExecutable := Except.ok "google-chrome"
    first := exitEarlyAttempt 9
    second := exitEarlyAttempt 7 }

/-- A configuration with the repository's defaults for the fields the
factory reads, a two-tick startup budget, and no explicit CDP URL. -/
def baseConfig : AppConfig :=
  { browser_mode := "auto"
    connect_existing_cdp := true
    cdp_url := none
    cdp_port := 9222
    fresh_chrome_user_data_dir := "chrome-fresh-profile"
    fresh_chrome_start_timeout := 2
    profile_directory := "Default"
    headless := false
    keep_alive := false }

/-- The base configuration in each explicit mode. -/
def ownConfig : AppConfig := { baseConfig with browser_mode := "own" }

def freshConfig : AppConfig := { baseConfig with browser_mode := "fresh" }

def managedConfig : AppConfig := { baseConfig with browser_mode := "managed" }

/-- A world where no candidate endpoint is Alive and launches hang. -/
def deadWorld : World :=
  { alive := fun _ => false, fresh := quietFresh, system := OS.linux }

/-- A world where every candidate endpoint is Alive. -/
def liveWorld : World :=
  { alive := fun _ => true, fresh := quietFresh, system := OS.linux }

/-! ### Lemmas about the port scan -/

theorem scanPorts_probed_range (busy : Nat → Bool) :
    ∀ n start, ∀ p ∈ (scanPorts busy start n).1, start ≤ p ∧ p < start + n := by
  intro n
  induction n with
  | zero => intro start p hp; simp [scanPorts] at hp
  | succ n ih =>
    intro start p hp
    cases hb : busy start with
    | true =>
      simp only [scanPorts, hb, if_true, List.mem_cons] at hp
      rcases hp with rfl | hp
      · omega
      · have := ih (start + 1) p hp
        omega
    | false =>
      simp only [scanPorts, hb, Bool.false_eq_true, if_false, List.mem_singleton] at hp
      omega

theorem scanPorts_result_spec (busy : Nat → Bool) :
    ∀ n start p, (scanPorts busy start n).2 = some p →
      start ≤ p ∧ p < start + n ∧ busy p = false ∧
        ∀ q, start ≤ q → q < p → busy q = true := by
  intro n
  induction n with
  | zero => intro start p hp; simp [scanPorts] at hp
  | succ n ih =>
    intro start p hp
    cases hb : busy start with
    | true =>
      simp only [scanPorts, hb, if_true] at hp
      obtain ⟨h1, h2, h3, h4⟩ := ih (start + 1) p hp
      refine ⟨by omega, by omega, h3, ?_⟩
      intro q hq1 hq2
      rcases Nat.eq_or_lt_of_le hq1 with rfl | hlt
      · exact hb
      · exact h4 q (by omega) hq2
    | false =>
      simp only [scanPorts, hb, Bool.false_eq_true, if_false, Option.some.injEq] at hp
      subst hp
      exact ⟨Nat.le_refl _, by omega, hb, fun q hq1 hq2 => absurd hq2 (by omega)⟩

/-- C10: the free-port scan is capped at 9400 regardless of the starting
port: `_find_free_port` probes only ports in `[start, 9400]` and returns
the first port not accepting a TCP connection; for every start greater
than 9400 it raises the no-free-port error immediately, probing no
port. -/
theorem find_free_port_scan_capped (busy : Nat → Bool) (start : Nat) :
    (∀ p ∈ (findFreePortScan busy start portScanStop).1, start ≤ p ∧ p ≤ portScanStop) ∧
    (∀ p, find_free_port busy start = Except.ok p →
      start ≤ p ∧ p ≤ portScanStop ∧ busy p = false ∧
        ∀ q, start ≤ q → q < p → busy q = true) ∧
    (portScanStop < start →
      (findFreePortScan busy start portScanStop).1 = [] ∧
        find_free_port busy start =
          Except.error ("No free local port found in range " ++ toString start ++ "-"
            ++ toString portScanStop ++ ".")) := by
  refine ⟨?_, ?_, ?_⟩
  · intro p hp
    have := scanPorts_probed_range busy (portScanStop + 1 - start) start p hp
    omega
  · intro p hp
    unfold find_free_port at hp
    cases hscan : (findFreePortScan busy start portScanStop).2 with
    | none => rw [hscan] at hp; exact absurd hp (by simp)
    | some q =>
      rw [hscan] at hp
      have hq : q = p := by simpa using hp
      subst hq
      have := scanPorts_result_spec busy (portScanStop + 1 - start) start q hscan
      exact ⟨this.1, by omega, this.2.2.1, this.2.2.2⟩
  · intro hgt
    have hzero : portScanStop + 1 - start = 0 := by omega
    constructor
    · show (scanPorts busy start (portScanStop + 1 - start)).1 = []
      rw [hzero]
      rfl
    · unfold find_free_port
      show (match (scanPorts busy start (portScanStop + 1 - start)).2 with
        | some port => Except.ok port
        | none => Except.error _) = _
      rw [hzero]
      rfl

/-! ### The liveness probe: C5 -/

/-- C5 (counterexample to the claim as stated): with a response whose
"Browser" field is the JSON boolean `true` — truthy but not a non-empty
string — `_cdp_alive` returns Alive, refuting "Alive only when the
browser-identity field is a non-empty string". -/
theorem cdp_alive_truthy_nonstring_counterexample :
    cdp_alive boolBrowserResponse = true ∧
      specBrowserFieldNonemptyString boolBrowserResponse = false := by
  exact ⟨rfl, rfl⟩

/-- C5 (amended): the probe never lets an exception reach its caller —
every failure inside the attempt yields Dead — and it returns Alive
exactly when the response parses as a JSON object whose "Browser" field
is present and truthy by Python semantics (every non-empty string
qualifies, but so do other truthy JSON values); any transport error,
timeout or malformed body yields Dead. -/
theorem cdp_alive_characterization (response : Option Json) :
    (cdp_alive response = true ↔
      ∃ fields v, response = some (Json.obj fields) ∧
        jsonGet fields "Browser" = some v ∧ truthy v = true) ∧
    (∀ e, cdpAliveAttempt response = Except.error e → cdp_alive response = false) := by
  constructor
  · constructor
    · intro h
      match response with
      | none => simp [cdp_alive, cdpAliveAttempt] at h
      | some Json.null => simp [cdp_alive, cdpAliveAttempt] at h
      | some (Json.bool b) => simp [cdp_alive, cdpAliveAttempt] at h
      | some (Json.num n) => simp [cdp_alive, cdpAliveAttempt] at h
      | some (Json.str s) => simp [cdp_alive, cdpAliveAttempt] at h
      | some (Json.arr elems) => simp [cdp_alive, cdpAliveAttempt] at h
      | some (Json.obj fields) =>
        refine ⟨fields, ?_⟩
        cases hv : jsonGet fields "Browser" with
        | none => simp [cdp_alive, cdpAliveAttempt, hv, truthy] at h
        | some v =>
          refine ⟨v, rfl, rfl, ?_⟩
          simpa [cdp_alive, cdpAliveAttempt, hv] using h
    · rintro ⟨fields, v, rfl, hv, ht⟩
      simp [cdp_alive, cdpAliveAttempt, hv, ht]
  · intro e he
    simp [cdp_alive, he]

/-! ### Lemmas about candidate probing -/

theorem probeCandidates_isSome (alive : String → Bool) :
    ∀ l seen, (∀ c ∈ seen, alive c = false) →
      (((probeCandidates alive seen l).2.isSome = true) ↔ ∃ c ∈ l, alive c = true) := by
  intro l
  induction l with
  | nil =>
    intro seen hseen
    simp [probeCandidates]
  | cons c rest ih =>
    intro seen hseen
    by_cases hc : c ∈ seen
    · have hcontains : seen.contains c = true := by
        simpa using hc
      rw [probeCandidates, if_pos hcontains]
      rw [ih seen hseen]
      constructor
      · rintro ⟨x, hx, hax⟩
        exact ⟨x, List.mem_cons_of_mem c hx, hax⟩
      · rintro ⟨x, hx, hax⟩
        rcases List.mem_cons.mp hx with rfl | hx
        · exact absurd hax (by simp [hseen x hc])
        · exact ⟨x, hx, hax⟩
    · rw [probeCandidates, if_neg (by simpa using hc)]
      cases ha : alive c with
      | true =>
        simp only [if_pos rfl]
        exact ⟨fun _ => ⟨c, List.mem_cons_self c rest, ha⟩, fun _ => rfl⟩
      | false =>
        rw [if_neg (by simp)]
        have hseen2 : ∀ x ∈ c :: seen, alive x = false := by
          intro x hx
          rcases List.mem_cons.mp hx with rfl | hx
          · exact ha
          · exact hseen x hx
        simp only []
        rw [ih (c :: seen) hseen2]
        constructor
        · rintro ⟨x, hx, hax⟩
          exact ⟨x, List.mem_cons_of_mem c hx, hax⟩
        · rintro ⟨x, hx, hax⟩
          rcases List.mem_cons.mp hx with rfl | hx
          · exact absurd hax (by simp [ha])
          · exact ⟨x, hx, hax⟩

theorem probeCandidates_some_alive (alive : String → Bool) :
    ∀ l seen u, (probeCandidates alive seen l).2 = some u →
      alive u = true ∧ u ∈ l := by
  intro l
  induction l with
  | nil =>
    intro seen u h
    simp [probeCandidates] at h
  | cons c rest ih =>
    intro seen u h
    by_cases hc : seen.contains c = true
    · rw [probeCandidates, if_pos hc] at h
      obtain ⟨ha, hm⟩ := ih seen u h
      exact ⟨ha, List.mem_cons_of_mem c hm⟩
    · rw [probeCandidates, if_neg (by simpa using hc)] at h
      cases ha : alive c with
      | true =>
        rw [if_pos (by simp [ha])] at h
        have : c = u := by simpa using h
        subst this
        exact ⟨ha, List.mem_cons_self c rest⟩
      | false =>
        rw [if_neg (by simp [ha])] at h
        simp only [] at h
        obtain ⟨hau, hm⟩ := ih (c :: seen) u h
        exact ⟨hau, List.mem_cons_of_mem c hm⟩

theorem resolveExistingCdpUrl_isSome (alive : String → Bool) (config : AppConfig) :
    (((resolveExistingCdpUrl alive config).2.isSome = true) ↔
      ∃ c ∈ cdpCandidates config, alive c = true) :=
  probeCandidates_isSome alive (cdpCandidates config) [] (by simp)

/-! ### Shape of `build_browser` in each mode -/

theorem build_browser_auto_some (w : World) (config : AppConfig) (ts : Nat) (u : String)
    (hmode : pyLower config.browser_mode = "auto")
    (hres : (resolveExistingCdpUrl w.alive config).2 = some u) :
    build_browser w config ts =
      ((resolveExistingCdpUrl w.alive config).1.map Event.probe ++ [Event.mkHandle],
       Except.ok { mode := "own", cdp_url := some u, launched_process := none }) := by
  simp only [build_browser, hmode, hres]
  simp [hres]

theorem build_browser_auto_none_error (w : World) (config : AppConfig) (ts : Nat)
    (e : FatalLaunchError)
    (hmode : pyLower config.browser_mode = "auto")
    (hres : (resolveExistingCdpUrl w.alive config).2 = none)
    (hlaunch : (launchFreshChromeForCdp w.fresh config ts).2 = Except.error e) :
    build_browser w config ts =
      ((resolveExistingCdpUrl w.alive config).1.map Event.probe
         ++ (launchFreshChromeForCdp w.fresh config ts).1,
       Except.error (BuildError.launch e)) := by
  simp only [build_browser, hmode, hres]
  simp [hres, hlaunch]

theorem build_browser_auto_none_ok (w : World) (config : AppConfig) (ts : Nat)
    (proc : LaunchedProc) (url : String)
    (hmode : pyLower config.browser_mode = "auto")
    (hres : (resolveExistingCdpUrl w.alive config).2 = none)
    (hlaunch : (launchFreshChromeForCdp w.fresh config ts).2 = Except.ok (proc, url)) :
    build_browser w config ts =
      ((resolveExistingCdpUrl w.alive config).1.map Event.probe
         ++ (launchFreshChromeForCdp w.fresh config ts).1 ++ [Event.mkHandle],
       Except.ok { mode := "fresh", cdp_url := some url, launched_process := some proc }) := by
  simp only [build_browser, hmode, hres]
  simp [hres, hlaunch]

theorem build_browser_own_none (w : World) (config : AppConfig) (ts : Nat)
    (hmode : pyLower config.browser_mode = "own")
    (hres : (resolveExistingCdpUrl w.alive config).2 = none) :
    build_browser w config ts =
      ((resolveExistingCdpUrl w.alive config).1.map Event.probe,
       Except.error
         (BuildError.noLiveEndpoint (ownModeErrorMessage w.system config.cdp_port))) := by
  simp only [build_browser, hmode, hres]
  simp [hres]

theorem build_browser_own_some (w : World) (config : AppConfig) (ts : Nat) (u : String)
    (hmode : pyLower config.browser_mode = "own")
    (hres : (resolveExistingCdpUrl w.alive config).2 = some u) :
    build_browser w config ts =
      ((resolveExistingCdpUrl w.alive config).1.map Event.probe ++ [Event.mkHandle],
       Except.ok { mode := "own", cdp_url := some u, launched_process := none }) := by
  simp only [build_browser, hmode, hres]
  simp [hres]

theorem build_browser_managed (w : World) (config : AppConfig) (ts : Nat)
    (hmode : pyLower config.browser_mode = "managed") :
    build_browser w config ts =
      ((if config.connect_existing_cdp then (resolveExistingCdpUrl w.alive config).1
          else []).map Event.probe ++ [Event.mkHandle],
       Except.ok { mode := "managed", cdp_url := none, launched_process := none }) := by
  simp only [build_browser, hmode]
  by_cases hconn : config.connect_existing_cdp
  · simp [hconn]
  · simp [hconn]

theorem build_browser_fresh_error (w : World) (config : AppConfig) (ts : Nat)
    (e : FatalLaunchError)
    (hmode : pyLower config.browser_mode = "fresh")
    (hlaunch : (launchFreshChromeForCdp w.fresh config ts).2 = Except.error e) :
    build_browser w config ts =
      ((if config.connect_existing_cdp then (resolveExistingCdpUrl w.alive config).1
          else []).map Event.probe ++ (launchFreshChromeForCdp w.fresh config ts).1,
       Except.error (BuildError.launch e)) := by
  simp only [build_browser, hmode]
  by_cases hconn : config.connect_existing_cdp
  · simp [hconn, hlaunch]
  · simp [hconn, hlaunch]

theorem build_browser_fresh_ok (w : World) (config : AppConfig) (ts : Nat)
    (proc : LaunchedProc) (url : String)
    (hmode : pyLower config.browser_mode = "fresh")
    (hlaunch : (launchFreshChromeForCdp w.fresh config ts).2 = Except.ok (proc, url)) :
    build_browser w config ts =
      ((if config.connect_existing_cdp then (resolveExistingCdpUrl w.alive config).1
          else []).map Event.probe ++ (launchFreshChromeForCdp w.fresh config ts).1
         ++ [Event.mkHandle],
       Except.ok { mode := "fresh", cdp_url := some url, launched_process := some proc }) := by
  simp only [build_browser, hmode]
  by_cases hconn : config.connect_existing_cdp
  · simp [hconn, hlaunch]
  · simp [hconn, hlaunch]

theorem resolveExistingCdpUrl_none (alive : String → Bool) (config : AppConfig)
    (h : ∀ c ∈ cdpCandidates config, alive c = false) :
    (resolveExistingCdpUrl alive config).2 = none := by
  cases hres : (resolveExistingCdpUrl alive config).2 with
  | none => rfl
  | some u =>
    obtain ⟨ha, hm⟩ := probeCandidates_some_alive alive (cdpCandidates config) [] u hres
    rw [h u hm] at ha
    exact absurd ha (by simp)

/-! ### Mode negotiation: C1, C6, C9, C8 -/

/-- C1: in auto mode, `build_browser` resolves to Own — adopting a live
endpoint, owning no process and spawning nothing — exactly when at least
one probed candidate is Alive, and to Fresh otherwise, the outcome then
being the fresh launcher's; the trace starts with the candidate probes
(the resolution precedes any spawn), and the resolution depends only on
the set of live candidates: permuted candidate lists resolve
identically. -/
theorem build_browser_auto_mode_resolution (w : World) (config : AppConfig) (ts : Nat)
    (hmode : pyLower config.browser_mode = "auto") :
    ((∃ c ∈ cdpCandidates config, w.alive c = true) →
      ∃ u, (build_browser w config ts).2 =
          Except.ok { mode := "own", cdp_url := some u, launched_process := none } ∧
        ∀ p d, Event.spawn p d ∉ (build_browser w config ts).1) ∧
    ((∀ c ∈ cdpCandidates config, w.alive c = false) →
      (∀ e, (launchFreshChromeForCdp w.fresh config ts).2 = Except.error e →
        (build_browser w config ts).2 = Except.error (BuildError.launch e)) ∧
      (∀ proc url, (launchFreshChromeForCdp w.fresh config ts).2 = Except.ok (proc, url) →
        (build_browser w config ts).2 =
          Except.ok { mode := "fresh", cdp_url := some url, launched_process := some proc })) ∧
    (∃ tail, (build_browser w config ts).1 =
        (resolveExistingCdpUrl w.alive config).1.map Event.probe ++ tail ∧
      ∀ p d, Event.spawn p d ∉ (resolveExistingCdpUrl w.alive config).1.map Event.probe) ∧
    (∀ l₁ l₂ : List String, l₁.Perm l₂ →
      (probeCandidates w.alive [] l₁).2.isSome = (probeCandidates w.alive [] l₂).2.isSome) := by
  refine ⟨?_, ?_, ?_, ?_⟩
  · intro hsome
    have hs : (resolveExistingCdpUrl w.alive config).2.isSome = true :=
      (resolveExistingCdpUrl_isSome w.alive config).mpr hsome
    obtain ⟨u, hres⟩ := Option.isSome_iff_exists.mp hs
    refine ⟨u, ?_, ?_⟩
    · rw [build_browser_auto_some w config ts u hmode hres]
    · rw [build_browser_auto_some w config ts u hmode hres]
      intro p d
      simp
  · intro hnone
    have hres := resolveExistingCdpUrl_none w.alive config hnone
    constructor
    · intro e hlaunch
      rw [build_browser_auto_none_error w config ts e hmode hres hlaunch]
    · intro proc url hlaunch
      rw [build_browser_auto_none_ok w config ts proc url hmode hres hlaunch]
  · cases hres : (resolveExistingCdpUrl w.alive config).2 with
    | some u =>
      rw [build_browser_auto_some w config ts u hmode hres]
      exact ⟨[Event.mkHandle], rfl, by simp⟩
    | none =>
      cases hlaunch : (launchFreshChromeForCdp w.fresh config ts).2 with
      | error e =>
        rw [build_browser_auto_none_error w config ts e hmode hres hlaunch]
        exact ⟨(launchFreshChromeForCdp w.fresh config ts).1, rfl, by simp⟩
      | ok res =>
        rw [build_browser_auto_none_ok w config ts res.1 res.2 hmode hres (by simpa using hlaunch)]
        exact ⟨(launchFreshChromeForCdp w.fresh config ts).1 ++ [Event.mkHandle],
          by simp, by simp⟩
  · intro l₁ l₂ hperm
    rw [Bool.eq_iff_iff]
    rw [probeCandidates_isSome w.alive l₁ [] (by simp),
      probeCandidates_isSome w.alive l₂ [] (by simp)]
    constructor
    · rintro ⟨c, hc, ha⟩
      exact ⟨c, hperm.mem_iff.mp hc, ha⟩
    · rintro ⟨c, hc, ha⟩
      exact ⟨c, hperm.mem_iff.mpr hc, ha⟩

/-- C1 witness: with every candidate Alive, auto mode resolves to Own at
a concrete configuration. -/
theorem build_browser_auto_mode_resolution_witness :
    ∃ u, (build_browser liveWorld baseConfig 0).2 =
        Except.ok { mode := "own", cdp_url := some u, launched_process := none } := by
  have h := build_browser_auto_mode_resolution liveWorld baseConfig 0 rfl
  obtain ⟨u, hu, -⟩ := h.1 ⟨"http://127.0.0.1:9222", by decide, rfl⟩
  exact ⟨u, hu⟩

/-- C6: in own mode with no live candidate, `build_browser` fails with
`NoLiveEndpoint` whose message embeds the OS-appropriate manual-start
command, and nothing is spawned; with a live candidate it adopts that
endpoint and the handle owns no process. -/
theorem build_browser_own_mode (w : World) (config : AppConfig) (ts : Nat)
    (hmode : pyLower config.browser_mode = "own") :
    ((∀ c ∈ cdpCandidates config, w.alive c = false) →
      (build_browser w config ts).2 =
        Except.error
          (BuildError.noLiveEndpoint (ownModeErrorMessage w.system config.cdp_port)) ∧
      (∀ p d, Event.spawn p d ∉ (build_browser w config ts).1) ∧
      ∃ pre post, ownModeErrorMessage w.system config.cdp_port =
          pre ++ manualCdpStartHint w.system config.cdp_port ++ post) ∧
    ((∃ c ∈ cdpCandidates config, w.alive c = true) →
      ∃ u, u ∈ cdpCandidates config ∧ w.alive u = true ∧
        (build_browser w config ts).2 =
          Except.ok { mode := "own", cdp_url := some u, launched_process := none } ∧
        ∀ p d, Event.spawn p d ∉ (build_browser w config ts).1) := by
  constructor
  · intro hnone
    have hres := resolveExistingCdpUrl_none w.alive config hnone
    rw [build_browser_own_none w config ts hmode hres]
    refine ⟨rfl, ?_, ?_⟩
    · intro p d
      simp
    · exact ⟨"BROWSER_MODE=own requires a live Chrome CDP session.\nStart Chrome with:\n  ",
        "\nOr switch to BROWSER_MODE=fresh.", rfl⟩
  · intro hsome
    have hs : (resolveExistingCdpUrl w.alive config).2.isSome = true :=
      (resolveExistingCdpUrl_isSome w.alive config).mpr hsome
    obtain ⟨u, hres⟩ := Option.isSome_iff_exists.mp hs
    obtain ⟨ha, hm⟩ := probeCandidates_some_alive w.alive (cdpCandidates config) [] u hres
    refine ⟨u, hm, ha, ?_, ?_⟩
    · rw [build_browser_own_some w config ts u hmode hres]
    · rw [build_browser_own_some w config ts u hmode hres]
      intro p d
      simp

/-- C6 witness: own mode with nothing listening fails with the
`NoLiveEndpoint` error carrying the Linux manual-start hint. -/
theorem build_browser_own_mode_witness :
    (build_browser deadWorld ownConfig 0).2 =
      Except.error (BuildError.noLiveEndpoint (ownModeErrorMessage OS.linux 9222)) := by
  have h := build_browser_own_mode deadWorld ownConfig 0 rfl
  exact (h.1 (fun c hc => rfl)).1

/-- C9 (amended): in managed mode `build_browser` launches nothing and
returns a handle in mode "managed" with the endpoint unset and no owned
process; however it still probes the candidate endpoints whenever
`connect_existing_cdp` is set (discarding the result), skipping probing
only when that flag is off. -/
theorem build_browser_managed_mode (w : World) (config : AppConfig) (ts : Nat)
    (hmode : pyLower config.browser_mode = "managed") :
    (build_browser w config ts).2 =
        Except.ok { mode := "managed", cdp_url := none, launched_process := none } ∧
    (∀ p d, Event.spawn p d ∉ (build_browser w config ts).1) ∧
    (build_browser w config ts).1 =
      (if config.connect_existing_cdp then (resolveExistingCdpUrl w.alive config).1
        else []).map Event.probe ++ [Event.mkHandle] := by
  rw [build_browser_managed w config ts hmode]
  refine ⟨rfl, ?_, rfl⟩
  intro p d
  simp

/-- C9 witness: the amended claim at a concrete managed configuration. -/
theorem build_browser_managed_mode_witness :
    (build_browser deadWorld managedConfig 0).2 =
      Except.ok { mode := "managed", cdp_url := none, launched_process := none } := by
  exact (build_browser_managed_mode deadWorld managedConfig 0 rfl).1

/-- C9 counterexample to the claim as stated: with the default
`connect_existing_cdp = true`, a managed-mode run does probe a candidate
endpoint, refuting "performs no endpoint probing ... for every
configuration". -/
theorem build_browser_managed_probe_counterexample :
    Event.probe "http://127.0.0.1:9222" ∈ (build_browser deadWorld managedConfig 0).1 ∧
    managedConfig.connect_existing_cdp = true := by
  decide

/-- C8: a fresh-mode run on which the endpoint never becomes Alive
spawns Chrome (twice, with the retry) and then returns control to the
caller through a `StartupTimeout` error: no `BrowserRuntime` handle is
ever constructed, so neither spawned process is reachable from any
handle, contradicting "no code path spawns a browser process without
recording it in the RuntimeHandle before returning control". -/
theorem build_browser_spawn_without_handle :
    Event.spawn 9222 "chrome-fresh-profile" ∈ (build_browser deadWorld freshConfig 0).1 ∧
    (build_browser deadWorld freshConfig 0).2 =
      Except.error (BuildError.launch
        { failure := LaunchFailure.startupTimeout
          context := some LaunchFailure.startupTimeout }) ∧
    Event.mkHandle ∉ (build_browser deadWorld freshConfig 0).1 := by
  refine ⟨by decide, by rfl, by decide⟩

/-! ### The readiness poll: C3 -/

theorem pollForCdp_exit_spec (w : AttemptWorld) (url : String) :
    ∀ fuel t k code, k < fuel →
      (∀ i, i < k → w.cdpReady (t + i) = false ∧ w.exitedWith (t + i) = none) →
      w.cdpReady (t + k) = false → w.exitedWith (t + k) = some code →
      (pollForCdp w url fuel t).2 = Except.error (LaunchFailure.processExitedEarly code) := by
  intro fuel
  induction fuel with
  | zero =>
    intro t k code hk
    exact absurd hk (Nat.not_lt_zero k)
  | succ fuel ih =>
    intro t k code hk hquiet hready hexit
    cases k with
    | zero =>
      rw [Nat.add_zero] at hready hexit
      simp only [pollForCdp, hready, hexit, Bool.false_eq_true, if_false]
    | succ k =>
      have h0 := hquiet 0 (Nat.succ_pos k)
      rw [Nat.add_zero] at h0
      simp only [pollForCdp, h0.1, h0.2, Bool.false_eq_true, if_false]
      have e1 : t + 1 + k = t + (k + 1) := by omega
      apply ih (t + 1) k code (by omega)
      · intro i hi
        have e2 : t + 1 + i = t + (i + 1) := by omega
        rw [e2]
        exact hquiet (i + 1) (by omega)
      · rw [e1]
        exact hready
      · rw [e1]
        exact hexit

theorem pollForCdp_timeout_spec (w : AttemptWorld) (url : String) :
    ∀ fuel t,
      (∀ i, i < fuel → w.cdpReady (t + i) = false ∧ w.exitedWith (t + i) = none) →
      pollForCdp w url fuel t =
        (List.replicate fuel (Event.probe url) ++ [Event.terminate],
         Except.error LaunchFailure.startupTimeout) := by
  intro fuel
  induction fuel with
  | zero =>
    intro t h
    simp [pollForCdp]
  | succ fuel ih =>
    intro t h
    have h0 := h 0 (Nat.succ_pos fuel)
    rw [Nat.add_zero] at h0
    simp only [pollForCdp, h0.1, h0.2, Bool.false_eq_true, if_false]
    rw [ih (t + 1) (fun i hi => by
      have e : t + 1 + i = t + (i + 1) := by omega
      rw [e]
      exact h (i + 1) (by omega))]
    simp [List.replicate_succ]

/-- C3: during the readiness poll of a fresh launch, a process exit
observed before the endpoint ever probes Alive fails with
`ProcessExitedEarly` carrying the observed exit code; and when the whole
startup budget elapses with the process still running, the loop's trace
is exactly the probes followed by a `terminate` attempt on the
still-running process, after which `StartupTimeout` propagates. -/
theorem pollForCdp_failure_modes (w : AttemptWorld) (url : String) (fuel : Nat) :
    (∀ k code, k < fuel →
      (∀ i, i < k → w.cdpReady i = false ∧ w.exitedWith i = none) →
      w.cdpReady k = false → w.exitedWith k = some code →
      (pollForCdp w url fuel 0).2 = Except.error (LaunchFailure.processExitedEarly code)) ∧
    ((∀ i, i < fuel → w.cdpReady i = false ∧ w.exitedWith i = none) →
      pollForCdp w url fuel 0 =
        (List.replicate fuel (Event.probe url) ++ [Event.terminate],
         Except.error LaunchFailure.startupTimeout)) := by
  constructor
  · intro k code hk hquiet hready hexit
    apply pollForCdp_exit_spec w url fuel 0 k code hk
    · intro i hi
      rw [Nat.zero_add]
      exact hquiet i hi
    · rw [Nat.zero_add]
      exact hready
    · rw [Nat.zero_add]
      exact hexit
  · intro hquiet
    apply pollForCdp_timeout_spec w url fuel 0
    intro i hi
    rw [Nat.zero_add]
    exact hquiet i hi

/-! ### The one-shot retry: C2 -/

theorem retryDirFor_ne (baseDir : String) (ts : Nat) :
    retryDirFor baseDir ts ≠ baseDir := by
  intro h
  have hlen := congrArg String.length h
  rw [retryDirFor, String.length_append, String.length_append] at hlen
  have h5 : ("-run-" : String).length = 5 := rfl
  rw [h5] at hlen
  omega

theorem attemptDirs_pollForCdp (w : AttemptWorld) (url : String) :
    ∀ fuel t, attemptDirs (pollForCdp w url fuel t).1 = [] := by
  intro fuel
  induction fuel with
  | zero => intro t; rfl
  | succ fuel ih =>
    intro t
    by_cases hr : w.cdpReady t = true
    · simp [pollForCdp, hr, attemptDirs]
    · cases he : w.exitedWith t with
      | some code =>
        simp [pollForCdp, hr, he, attemptDirs]
      | none =>
        have := ih (t + 1)
        simp only [pollForCdp, hr, he, Bool.false_eq_true, if_false] at this ⊢
        simpa [attemptDirs] using this

theorem attemptDirs_portChecks (l : List Nat) :
    attemptDirs (l.map Event.portCheck) = [] := by
  induction l with
  | nil => rfl
  | cons p rest _ => simp [attemptDirs]

theorem attemptDirs_append (a b : List Event) :
    attemptDirs (a ++ b) = attemptDirs a ++ attemptDirs b :=
  List.filterMap_append a b _

theorem attemptDirs_launchWithProfileDir (w : AttemptWorld) (config : AppConfig)
    (dir : String) :
    attemptDirs (launchWithProfileDir w config dir).1 = [dir] := by
  have hmk : ∀ rest : List Event, ∀ d,
      attemptDirs (Event.mkdir d :: rest) = d :: attemptDirs rest := fun _ _ => rfl
  have hpc : ∀ rest : List Event, ∀ p,
      attemptDirs (Event.portCheck p :: rest) = attemptDirs rest := fun _ _ => rfl
  have hsp : ∀ rest : List Event, ∀ p d,
      attemptDirs (Event.spawn p d :: rest) = attemptDirs rest := fun _ _ _ => rfl
  unfold launchWithProfileDir
  by_cases hb : w.busy config.cdp_port = true
  · simp only [hb, if_true]
    cases hscan : (findFreePortScan w.busy (config.cdp_port + 1) portScanStop).2 with
    | none =>
      simp only [hscan, hmk, hpc]
      rw [attemptDirs_portChecks]
    | some p =>
      simp only [hscan]
      rw [attemptDirs_append, hmk, hpc, attemptDirs_portChecks, hsp,
        attemptDirs_pollForCdp]
      rfl
  · simp only [hb, Bool.false_eq_true, if_false]
    rw [hmk, hpc, hsp, attemptDirs_pollForCdp]

/-- C2: whenever the first launch attempt (with the primary user-data
directory) fails, exactly one retry runs, using the timestamp-suffixed
directory, which differs from the primary one; the trace's attempt
starts are exactly those two (no third attempt), a retry failure is
surfaced chained to the first attempt's failure (Python's implicit
exception context), and a retry success is returned as is. -/
theorem launch_fresh_single_retry (w : FreshWorld) (config : AppConfig) (ts : Nat)
    (exe : String) (e1 : LaunchFailure)
    (hexe : w.findExecutable = Except.ok exe)
    (h1 : (launchWithProfileDir w.first config config.fresh_chrome_user_data_dir).2 =
      Except.error e1) :
    retryDirFor config.fresh_chrome_user_data_dir ts ≠ config.fresh_chrome_user_data_dir ∧
    attemptDirs (launchFreshChromeForCdp w config ts).1 =
      [config.fresh_chrome_user_data_dir,
        retryDirFor config.fresh_chrome_user_data_dir ts] ∧
    (∀ e2, (launchWithProfileDir w.second config
        (retryDirFor config.fresh_chrome_user_data_dir ts)).2 = Except.error e2 →
      (launchFreshChromeForCdp w config ts).2 =
        Except.error { failure := e2, context := some e1 }) ∧
    (∀ res, (launchWithProfileDir w.second config
        (retryDirFor config.fresh_chrome_user_data_dir ts)).2 = Except.ok res →
      (launchFreshChromeForCdp w config ts).2 = Except.ok res) := by
  refine ⟨retryDirFor_ne _ _, ?_, ?_, ?_⟩
  · unfold launchFreshChromeForCdp
    rw [hexe]
    simp only [h1]
    cases h2 : (launchWithProfileDir w.second config
        (retryDirFor config.fresh_chrome_user_data_dir ts)).2 with
    | ok res =>
      simp only [h2, attemptDirs_append, attemptDirs_launchWithProfileDir]
      rfl
    | error e2 =>
      simp only [h2, attemptDirs_append, attemptDirs_launchWithProfileDir]
      rfl
  · intro e2 h2
    unfold launchFreshChromeForCdp
    rw [hexe]
    simp only [h1, h2]
  · intro res h2
    unfold launchFreshChromeForCdp
    rw [hexe]
    simp only [h1, h2]

/-- C2 witness: with both attempts' processes exiting early (codes 9
and 7), the surfaced fatal error carries both, and exactly the two
expected directories are attempted. -/
theorem launch_fresh_single_retry_witness :
    (launchFreshChromeForCdp failTwiceFresh freshConfig 5).2 =
      Except.error { failure := LaunchFailure.processExitedEarly 7
                     context := some (LaunchFailure.processExitedEarly 9) } ∧
    attemptDirs (launchFreshChromeForCdp failTwiceFresh freshConfig 5).1 =
      ["chrome-fresh-profile", "chrome-fresh-profile-run-5"] := by
  have h := launch_fresh_single_retry failTwiceFresh freshConfig 5 "google-chrome"
    (LaunchFailure.processExitedEarly 9) rfl (by rfl)
  refine ⟨h.2.2.1 (LaunchFailure.processExitedEarly 7) (by rfl), ?_⟩
  rw [h.2.1]
  rfl

/-! ### Port reallocation: C7 -/

/-- C7: when the desired debugging port is free, the launcher spawns on
it unchanged and a successful launch reports that port and its endpoint
URL; when the desired port is occupied, the launcher spawns on the first
free port found scanning upward from desired + 1 (within the scan's
bound), and a successful launch reports the reallocated port and its
endpoint URL. -/
theorem launch_port_reallocation (w : AttemptWorld) (config : AppConfig) (dir : String) :
    (w.busy config.cdp_port = false →
      Event.spawn config.cdp_port dir ∈ (launchWithProfileDir w config dir).1 ∧
      ∀ proc url, (launchWithProfileDir w config dir).2 = Except.ok (proc, url) →
        proc.port = config.cdp_port ∧ url = cdpUrlFor config.cdp_port) ∧
    (∀ p, w.busy config.cdp_port = true →
      (findFreePortScan w.busy (config.cdp_port + 1) portScanStop).2 = some p →
      (config.cdp_port + 1 ≤ p ∧ p ≤ portScanStop ∧ w.busy p = false ∧
        ∀ q, config.cdp_port + 1 ≤ q → q < p → w.busy q = true) ∧
      Event.spawn p dir ∈ (launchWithProfileDir w config dir).1 ∧
      ∀ proc url, (launchWithProfileDir w config dir).2 = Except.ok (proc, url) →
        proc.port = p ∧ url = cdpUrlFor p) := by
  constructor
  · intro hfree
    constructor
    · unfold launchWithProfileDir
      simp only [hfree, Bool.false_eq_true, if_false]
      simp
    · intro proc url hok
      unfold launchWithProfileDir at hok
      simp only [hfree, Bool.false_eq_true, if_false] at hok
      cases hp : (pollForCdp w (cdpUrlFor config.cdp_port)
          config.fresh_chrome_start_timeout 0).2 with
      | ok u =>
        rw [hp] at hok
        simp [Except.map] at hok
        exact ⟨by rw [← hok.1], by rw [← hok.2]⟩
      | error e =>
        rw [hp] at hok
        simp [Except.map] at hok
  · intro p hbusy hscan
    have hspec := scanPorts_result_spec w.busy
      (portScanStop + 1 - (config.cdp_port + 1)) (config.cdp_port + 1) p hscan
    refine ⟨⟨hspec.1, by omega, hspec.2.2.1, hspec.2.2.2⟩, ?_, ?_⟩
    · unfold launchWithProfileDir
      simp only [hbusy, if_true, hscan]
      simp
    · intro proc url hok
      unfold launchWithProfileDir at hok
      simp only [hbusy, if_true, hscan] at hok
      cases hp : (pollForCdp w (cdpUrlFor p) config.fresh_chrome_start_timeout 0).2 with
      | ok u =>
        rw [hp] at hok
        simp [Except.map] at hok
        exact ⟨by rw [← hok.1], by rw [← hok.2]⟩
      | error e =>
        rw [hp] at hok
        simp [Except.map] at hok

/-! ### Cleanup: C4 -/

/-- C4: `cleanup` issues no signal and returns at once when keep-alive
is set, when no process is owned, or when the owned process already
exited; otherwise it leads with a graceful terminate, waits the 5 s
grace period whenever the terminate call itself did not raise, escalates
to a kill whenever the process did not exit within the grace period, and
in every case returns normally rather than propagating an exception. -/
theorem cleanup_contract :
    (∀ launched, cleanup launched true = ([], Except.ok ())) ∧
    (∀ keepAlive, cleanup none keepAlive = ([], Except.ok ())) ∧
    (∀ p code, p.pollResult = some code → cleanup (some p) false = ([], Except.ok ())) ∧
    (∀ p, p.pollResult = none →
      ((cleanup (some p) false).1.head? = some CleanupAction.terminate ∧
       (p.terminateOutcome ≠ TerminateOutcome.raisesOnSignal →
         CleanupAction.waitGrace 5 ∈ (cleanup (some p) false).1) ∧
       (p.terminateOutcome ≠ TerminateOutcome.exitsWithinGrace →
         CleanupAction.kill ∈ (cleanup (some p) false).1))) ∧
    (∀ launched keepAlive, (cleanup launched keepAlive).2 = Except.ok ()) := by
  refine ⟨?_, ?_, ?_, ?_, ?_⟩
  · intro launched
    simp [cleanup]
  · intro keepAlive
    simp [cleanup]
  · intro p code h
    simp [cleanup, h]
  · intro p h
    cases hterm : p.terminateOutcome <;>
      cases hkill : p.killOutcome <;>
        simp [cleanup, h, tryTerminateAndWait, tryKill, hterm, hkill]
  · intro launched keepAlive
    cases launched with
    | none => simp [cleanup]
    | some p =>
      cases keepAlive with
      | true => simp [cleanup]
      | false =>
        cases hpoll : p.pollResult with
        | some code => simp [cleanup, hpoll]
        | none =>
          cases hterm : p.terminateOutcome <;> cases hkill : p.killOutcome <;>
            simp [cleanup, hpoll, tryTerminateAndWait, tryKill, hterm, hkill]

end BrowserAgent
